import Mathlib

/-!
Shallow embedding of the auto-dialer backend (src/backend/server.js),
covering the campaign dispatch / balance-accounting endpoints, the
moderation helper, the admin blocklist and balance endpoints, and user
registration.  Money is modelled as exact rationals (the source uses JS
numbers holding decimal currency amounts); MongoDB documents are modelled
as Lean structures held in lists; each Express route handler becomes a
pure function from the database state (plus the request parameters) to a
result and an updated database state.
-/

/-- server.js line 18: `const CALL_COST = 0.05`. -/
def CALL_COST : ℚ := 5 / 100

/-- server.js line 23: `const SPAM_THRESHOLD = 0.8`. -/
def SPAM_THRESHOLD : ℚ := 8 / 10

/-- A document of the `User` model (server.js lines 55-61): username,
role (`"user"` or `"admin"`, default `"user"`), balance (default 0).
The bcrypt password hash is an external collaborator and is stored
opaquely. -/
structure AUser where
  uid : Nat
  username : String
  password : String
  role : String
  balance : ℚ
deriving Repr, DecidableEq

/-- A document of the `Contact` model (server.js lines 63-71): status is
one of `"new" | "called" | "answered" | "unanswered"`, default `"new"`. -/
structure Contact where
  cid : Nat
  name : String
  phoneNumber : String
  status : String
  campaign : Nat
deriving Repr, DecidableEq

/-- A document of the `Campaign` model (server.js lines 73-86).
`callsPerMinute` is bounded 1..100 by the schema; `isActive` defaults to
false.  The write-only `lastBatchFetchTime` timestamp is not modelled. -/
structure Campaign where
  cid : Nat
  userId : Nat
  fromNumber : String
  ttsMessage : String
  callsPerMinute : Nat
  isActive : Bool
deriving Repr, DecidableEq

/-- The MongoDB state visible to the modelled endpoints: the `User`,
`Campaign` and `Contact` collections (in insertion order, the order an
unsorted `find` returns) and the singleton `SystemSettings` document's
`fromNumberBlocklist`. -/
structure Db where
  users : List AUser
  campaigns : List Campaign
  contacts : List Contact
  fromNumberBlocklist : List String
deriving Repr, DecidableEq

/-- `User.findByIdAndUpdate`-style balance write: `user.save()` after
`user.balance -= ...`, or `$inc` — both persist a new balance for the
matching id. -/
def setUserBalance (users : List AUser) (uid : Nat) (b : ℚ) : List AUser :=
  users.map (fun u => if u.uid == uid then { u with balance := b } else u)

/-- server.js line 203: `Campaign.findByIdAndUpdate(req.params.id,
{ isActive: false })` — keyed on the id alone, not on the owner. -/
def setCampaignActive (cs : List Campaign) (cid : Nat) (a : Bool) : List Campaign :=
  cs.map (fun c => if c.cid == cid then { c with isActive := a } else c)

/-- server.js line 201: `parseInt(req.params.count, 10) || 5`.  The route
parameter is a string; `none` models a NaN parse (non-numeric segment),
and a parsed 0 is falsy, so both fall back to 5.  Any other parsed
integer — however large, and even negative — is used as-is. -/
def parseCount (c : Option Int) : Int :=
  match c with
  | none => 5
  | some n => if n == 0 then 5 else n

/-- Outcome of `GET /campaigns/:id/next-contacts/:count`.
`serverError` is the catch-all 500; `insufficientBalance` the 402
"Insufficient balance. Campaign paused."; `campaignNotFound` the 404
"Campaign not found or is inactive."; `noNewContacts` the 404
"No new contacts to call." -/
inductive DispatchResult
  | serverError
  | insufficientBalance
  | campaignNotFound
  | noNewContacts
  | ok (batch : List Contact) (newBalance : ℚ)
deriving Repr, DecidableEq

/-- Embedding of `GET /campaigns/:id/next-contacts/:count`
(server.js lines 198-211), the dispatch tick:
1. load the authenticated user (a missing user makes `user.balance`
   throw, caught as a 500);
2. `batchSize = parseInt(count) || 5`, `requiredBalance = CALL_COST * batchSize`;
3. if `user.balance < requiredBalance`, set the campaign inactive and
   return 402;
4. look the campaign up by id and owner; missing or inactive gives 404;
5. debit: `user.balance -= requiredBalance; user.save()`;
6. fetch up to `batchSize` contacts of the campaign with status `"new"`
   (Mongo's `limit` uses the absolute value of a negative argument);
7. an empty batch returns 404 "No new contacts" — with the debit already
   persisted; otherwise return the batch and the post-debit balance.
The handler never writes the contacts' status. -/
def nextContacts (db : Db) (authUserId campaignId : Nat) (countParam : Option Int) :
    DispatchResult × Db :=
  match db.users.find? (fun u => u.uid == authUserId) with
  | none => (.serverError, db)
  | some user =>
    let batchSize : Int := parseCount countParam
    let requiredBalance : ℚ := CALL_COST * batchSize
    if user.balance < requiredBalance then
      (.insufficientBalance,
        { db with campaigns := setCampaignActive db.campaigns campaignId false })
    else
      match db.campaigns.find? (fun c => c.cid == campaignId && c.userId == authUserId) with
      | none => (.campaignNotFound, db)
      | some campaign =>
        if !campaign.isActive then (.campaignNotFound, db)
        else
          let newBal := user.balance - requiredBalance
          let db1 := { db with users := setUserBalance db.users authUserId newBal }
          let batch := (db.contacts.filter
            (fun c => c.campaign == campaignId && c.status == "new")).take batchSize.natAbs
          if batch.isEmpty then (.noNewContacts, db1)
          else (.ok batch newBal, db1)

/-- JS `\w` word-character class used by the `\b` assertion:
`[A-Za-z0-9_]`. -/
def isWordChar (c : Char) : Bool := c.isAlpha || c.isDigit || c == '_'

/-- JS `String.prototype.trim`: strip leading and trailing whitespace. -/
def trimChars (l : List Char) : List Char :=
  ((l.dropWhile Char.isWhitespace).reverse.dropWhile Char.isWhitespace).reverse

/-- Character-wise lowercasing (JS `toLowerCase` / the regex `i` flag,
for the ASCII texts the word lists target). -/
def lowerChars (l : List Char) : List Char := l.map Char.toLower

/-- Whether the character at index `i` exists and is a word character
(out-of-range counts as non-word, as at the ends of a JS string). -/
def wordAt (l : List Char) (i : Nat) : Bool :=
  match l[i]? with
  | some c => isWordChar c
  | none => false

/-- The JS regex `\b` assertion at position `i` of `l` (positions run
from 0 to `l.length`): exactly one of the character before `i` and the
character at `i` is a word character. -/
def boundaryAt (l : List Char) (i : Nat) : Bool :=
  (match i with
   | 0 => false
   | j + 1 => wordAt l j) != wordAt l i

/-- The regex `\b<w>\b` (for a literal word `w`) matches `ls` at
position `i`: the characters of `w` occur verbatim starting at `i`,
with a word boundary on each side. -/
def matchWholeAt (lw ls : List Char) (i : Nat) : Bool :=
  ((ls.drop i).take lw.length == lw) && boundaryAt ls i && boundaryAt ls (i + lw.length)

/-- `new RegExp("\\b" + w + "\\b").test(s)`: the literal word matches at
some position of `s`. -/
def containsWholeWord (lw ls : List Char) : Bool :=
  (List.range (ls.length + 1)).any (fun i => matchWholeAt lw ls i)

/-- A blocklist entry inside the scope of the literal embedding: after
trimming it is non-empty and consists solely of word characters
(`[A-Za-z0-9_]`).  server.js line 114 interpolates the entry into
`new RegExp("\\b" + w.trim() + "\\b", "i")` without escaping, so only
for such entries is the resulting pattern a literal whole-word regex;
an entry containing regex metacharacters is interpreted by the engine
(e.g. `"a.c"` matches `"abc"`), or makes the `RegExp` constructor throw
(e.g. `"+1555"`), and is outside this model. -/
def plainWord (w : String) : Bool :=
  !(trimChars w.data).isEmpty && (trimChars w.data).all isWordChar

/-- Per-category risk scores returned by the Perspective API
(`SPAM`, `TOXICITY`, `THREAT` summary scores, each in [0,1]). -/
structure Scores where
  spam : ℚ
  toxicity : ℚ
  threat : ℚ
deriving Repr, DecidableEq

/-- server.js line 108: flag when any summary score exceeds
`SPAM_THRESHOLD`.  `none` models every failed external call — network
error (the `catch`), timeout, or a non-2xx response (`!response.ok`) —
all of which fall through without flagging. -/
def externallyFlagged (response : Option Scores) : Bool :=
  match response with
  | some s =>
    decide (SPAM_THRESHOLD < s.spam) || decide (SPAM_THRESHOLD < s.toxicity) ||
      decide (SPAM_THRESHOLD < s.threat)
  | none => false

/-- Embedding of `isTextFlagged(text, customBlocklist)` (server.js
lines 98-118).  `configured` models `PERSPECTIVE_API_KEY` being set and
not the placeholder; when it is, the external classifier's outcome is
consulted and an early `return true` fires on a high score.  Then the
text is lowercased and each blocklist word `w` is tested with
`new RegExp("\\b" + w.trim() + "\\b", "i")` — modelled as a literal
whole-word match of the trimmed, lowercased word.  The interpolation is
unescaped, so this literal model is exact only for entries satisfying
`plainWord` (no regex metacharacters, no constructor throw); the
theorems about this function restrict the word list accordingly. -/
def isTextFlagged (configured : Bool) (response : Option Scores) (text : String)
    (customBlocklist : List String) : Bool :=
  (configured && externallyFlagged response) ||
    customBlocklist.any
      (fun w => containsWholeWord (lowerChars (trimChars w.data)) (lowerChars text.data))

/-- MongoDB `$addToSet` of one element: append it unless present. -/
def addToSet (l : List String) (x : String) : List String :=
  if x ∈ l then l else l ++ [x]

/-- MongoDB `$addToSet: { fromNumberBlocklist: { $each: numbers } }`
(server.js line 177): add each number in turn, skipping those already
present. -/
def addNumbers (blocklist : List String) (numbers : List String) : List String :=
  numbers.foldl addToSet blocklist

/-- server.js line 176: `req.body.numbers.split(',').map(n => n.trim()).filter(n => n)`. -/
def parseNumbers (raw : String) : List String :=
  (((raw.data.splitOn ',').map trimChars).filter (fun s => !s.isEmpty)).map String.mk

/-- Embedding of `POST /admin/settings/blocklist` (server.js lines
175-179): a missing `numbers` body field gives the empty list, else the
comma-separated field is split, trimmed and filtered, and the result is
`$addToSet`-ed into the singleton settings document. -/
def postBlocklist (blocklist : List String) (raw : Option String) : List String :=
  addNumbers blocklist (match raw with | none => [] | some r => parseNumbers r)

/-- Outcome of `POST /auth/register`.  On success the HTTP layer returns
a JWT for the new user's id (signing is an external collaborator); the
embedding returns the stored user document. -/
inductive RegisterResult
  | userExists
  | serverError
  | ok (u : AUser)
deriving Repr, DecidableEq

/-- The `role` schema enum (server.js line 58): `['user', 'admin']`. -/
def roleValid (r : String) : Bool := r == "user" || r == "admin"

/-- Embedding of `POST /auth/register` (server.js lines 133-141), a
route with no auth middleware: take `username`, `password` and `role`
straight from the request body; 400 if the username exists; store the
user (bcrypt hashing is an external collaborator, kept opaque).  A
`role` absent from the body (`none`) gets the schema default `"user"`;
a value outside the enum makes `save()` throw, caught as a 500. -/
def register (db : Db) (username password : String) (role : Option String) (newId : Nat) :
    RegisterResult × Db :=
  if (db.users.find? (fun u => u.username == username)).isSome then (.userExists, db)
  else
    let r := role.getD "user"
    if !roleValid r then (.serverError, db)
    else
      let u : AUser :=
        { uid := newId, username := username, password := password, role := r, balance := 0 }
      (.ok u, { db with users := db.users ++ [u] })

/-- Outcome of the campaign Start operation. -/
inductive StartResult
  | notFound
  | insufficientFunds
  | started
deriving Repr, DecidableEq

/-- Modelled from the spec: src/backend/server.js has no start/pause
endpoint (campaigns are created with `isActive: false` and nothing in
the backend ever sets it to true), so the `Start` transition of spec
§4.3 is modelled from the spec's words: "Paused → Active, allowed only
if the owning account's current balance ≥ cost of one call; otherwise
rejected with an insufficient-funds error". -/
def startCampaign (db : Db) (campaignId : Nat) : StartResult × Db :=
  match db.campaigns.find? (fun c => c.cid == campaignId) with
  | none => (.notFound, db)
  | some c =>
    match db.users.find? (fun u => u.uid == c.userId) with
    | none => (.notFound, db)
    | some owner =>
      if owner.balance < CALL_COST then (.insufficientFunds, db)
      else (.started, { db with campaigns := setCampaignActive db.campaigns campaignId true })

/-- Outcome of `POST /admin/users/:userId/add-balance`. -/
inductive CreditResult
  | invalidAmount
  | userNotFound
  | ok (newBalance : ℚ)
deriving Repr, DecidableEq

/-- Embedding of `POST /admin/users/:userId/add-balance`
(server.js lines 164-171): reject unless `typeof amount === 'number'`
(`none` models a non-numeric body field) and `amount > 0`; otherwise
`$inc` the balance atomically and return the updated user. -/
def addBalance (db : Db) (targetUserId : Nat) (amount : Option ℚ) : CreditResult × Db :=
  match amount with
  | none => (.invalidAmount, db)
  | some a =>
    if a ≤ 0 then (.invalidAmount, db)
    else
      match db.users.find? (fun u => u.uid == targetUserId) with
      | none => (.userNotFound, db)
      | some u =>
        (.ok (u.balance + a),
          { db with users := setUserBalance db.users targetUserId (u.balance + a) })

/-- The balance-mutating operations of the backend: the admin Credit
(add-balance) and the Debit performed by a dispatch tick. -/
inductive Op
  | credit (targetUserId : Nat) (amount : Option ℚ)
  | dispatch (authUserId campaignId : Nat) (countParam : Option Int)
deriving Repr, DecidableEq

/-- The state transition of one operation. -/
def applyOp (db : Db) (op : Op) : Db :=
  match op with
  | .credit t a => (addBalance db t a).2
  | .dispatch u c k => (nextContacts db u c k).2

/-- The state after a sequence of operations. -/
def applyOps (db : Db) (ops : List Op) : Db := ops.foldl applyOp db

/-- Every account balance in the store is non-negative. -/
def balancesNonneg (db : Db) : Prop := ∀ u ∈ db.users, 0 ≤ u.balance

/-- Whether a character list ends in a word character. -/
def wordEnd (l : List Char) : Bool :=
  match l.getLast? with
  | some c => isWordChar c
  | none => false

/-- Whether a character list starts with a word character. -/
def wordStart (l : List Char) : Bool :=
  match l.head? with
  | some c => isWordChar c
  | none => false

/-- The spec's description of the wordlist check, stated independently
of the scanning algorithm: the lowercased text splits as
`pre ++ w ++ suf` around the lowercased word, with a word boundary at
each junction (exactly one side of the junction is a word character),
so a substring occurrence inside a longer word does not count. -/
def SpecWholeWordOccurs (text : String) (w : List Char) : Prop :=
  ∃ pre suf : List Char,
    lowerChars text.data = pre ++ lowerChars w ++ suf ∧
    wordEnd pre ≠ wordStart (lowerChars w ++ suf) ∧
    wordEnd (pre ++ lowerChars w) ≠ wordStart suf

/-- A pending ("new") contact of campaign 10, as uploaded. -/
def ct (n : Nat) (ph : String) : Contact :=
  { cid := n, name := "c", phoneNumber := ph, status := "new", campaign := 10 }

/-- A contact of campaign 10 already dispatched (status "called"). -/
def ctCalled (n : Nat) (ph : String) : Contact :=
  { cid := n, name := "c", phoneNumber := ph, status := "called", campaign := 10 }

/-- Fixture: user 1 with balance 1.00, one active campaign (id 10,
batch policy 5 calls per tick) with ten pending contacts. -/
def dbTen : Db :=
  { users := [{ uid := 1, username := "u", password := "pw", role := "user", balance := 1 }],
    campaigns := [{ cid := 10, userId := 1, fromNumber := "+15550001111", ttsMessage := "hi",
                    callsPerMinute := 5, isActive := true }],
    contacts := [ct 1 "p1", ct 2 "p2", ct 3 "p3", ct 4 "p4", ct 5 "p5",
                 ct 6 "p6", ct 7 "p7", ct 8 "p8", ct 9 "p9", ct 10 "p10"],
    fromNumberBlocklist := [] }

/-- Fixture: as `dbTen` but only three pending contacts. -/
def dbThree : Db :=
  { users := [{ uid := 1, username := "u", password := "pw", role := "user", balance := 1 }],
    campaigns := [{ cid := 10, userId := 1, fromNumber := "+15550001111", ttsMessage := "hi",
                    callsPerMinute := 5, isActive := true }],
    contacts := [ct 1 "p1", ct 2 "p2", ct 3 "p3"],
    fromNumberBlocklist := [] }

/-- Fixture: an exhausted campaign — every contact already "called". -/
def dbCalled : Db :=
  { users := [{ uid := 1, username := "u", password := "pw", role := "user", balance := 1 }],
    campaigns := [{ cid := 10, userId := 1, fromNumber := "+15550001111", ttsMessage := "hi",
                    callsPerMinute := 5, isActive := true }],
    contacts := [ctCalled 1 "p1", ctCalled 2 "p2", ctCalled 3 "p3"],
    fromNumberBlocklist := [] }

/-- Fixture: a well-funded account (balance 100.00) and an active
campaign whose batch-size policy is 5 calls per tick, with one pending
contact. -/
def dbPolicy : Db :=
  { users := [{ uid := 1, username := "u", password := "pw", role := "user", balance := 100 }],
    campaigns := [{ cid := 10, userId := 1, fromNumber := "+15550001111", ttsMessage := "hi",
                    callsPerMinute := 5, isActive := true }],
    contacts := [ct 1 "p1"],
    fromNumberBlocklist := [] }

/-- Fixture: a paused campaign whose owner holds balance 1.00. -/
def dbStart : Db :=
  { users := [{ uid := 1, username := "u", password := "pw", role := "user", balance := 1 }],
    campaigns := [{ cid := 10, userId := 1, fromNumber := "+15550001111", ttsMessage := "hi",
                    callsPerMinute := 5, isActive := false }],
    contacts := [ct 1 "p1"],
    fromNumberBlocklist := [] }

/-- Fixture: a lone user with balance 10.00, for the add-balance
endpoint. -/
def dbCredit : Db :=
  { users := [{ uid := 1, username := "u", password := "pw", role := "user", balance := 10 }],
    campaigns := [], contacts := [], fromNumberBlocklist := [] }

/-- Fixture: an empty store, for registration. -/
def dbEmpty : Db :=
  { users := [], campaigns := [], contacts := [], fromNumberBlocklist := [] }

/-- Claim C1.  The handler never marks returned contacts as called, so
the batches of two successive dispatch ticks overlap.  On a campaign
with ten pending contacts and a user balance of 1.00, the first request
for 5 returns contacts 1-5 (balance 0.75) and the second request for 5
returns the very same contacts 1-5 again (balance 0.50), instead of
contacts 6-10 — refuting the claimed no-overlap invariant on the code
as written. -/
theorem dispatch_rebatch_overlap :
    (nextContacts dbTen 1 10 (some 5)).1
      = .ok [ct 1 "p1", ct 2 "p2", ct 3 "p3", ct 4 "p4", ct 5 "p5"] (3 / 4) ∧
    (nextContacts (nextContacts dbTen 1 10 (some 5)).2 1 10 (some 5)).1
      = .ok [ct 1 "p1", ct 2 "p2", ct 3 "p3", ct 4 "p4", ct 5 "p5"] (1 / 2) := by
  constructor <;>
    norm_num [nextContacts, parseCount, CALL_COST, setUserBalance, dbTen, ct]

/-- Claim C2.  With three pending contacts and a request for five, the
code returns the three available contacts but debits
`CALL_COST * 5 = 0.25` — the requested count — leaving balance 0.75,
whereas a charge for the contacts actually returned would be
`CALL_COST * 3 = 0.15`: the code never recomputes or refunds. -/
theorem dispatch_overcharges_partial_batch :
    (nextContacts dbThree 1 10 (some 5)).1
      = .ok [ct 1 "p1", ct 2 "p2", ct 3 "p3"] (3 / 4) ∧
    (1 : ℚ) - 3 / 4 = CALL_COST * 5 ∧
    (1 : ℚ) - 3 / 4 ≠ CALL_COST * 3 := by
  refine ⟨?_, ?_, ?_⟩ <;>
    norm_num [nextContacts, parseCount, CALL_COST, setUserBalance, dbThree, ct]

/-- Claim C3.  A dispatch tick on an exhausted campaign (every contact
already "called") does return a signal distinct from insufficient-funds,
but the debit taken before the contact query is never refunded: the
stored balance drops from 1.00 to 0.75 on a call that released no
contacts. -/
theorem dispatch_exhausted_leaks_debit :
    (nextContacts dbCalled 1 10 (some 5)).1 = .noNewContacts ∧
    (nextContacts dbCalled 1 10 (some 5)).2.users
      = [{ uid := 1, username := "u", password := "pw", role := "user", balance := 3 / 4 }] ∧
    (3 / 4 : ℚ) ≠ 1 ∧
    DispatchResult.noNewContacts ≠ DispatchResult.insufficientBalance := by
  refine ⟨?_, ?_, by norm_num, by decide⟩ <;>
    norm_num [nextContacts, parseCount, CALL_COST, setUserBalance, dbCalled, ctCalled,
      show ¬("called" = "new") from by decide]

/-- Claim C5, counterexample.  The campaign's configured batch-size
policy is 5 calls per tick, yet a request for 50 contacts is not
rejected: the handler never compares the count to `callsPerMinute` and
returns a batch (and debits `CALL_COST * 50 = 2.50`). -/
theorem dispatch_ignores_batch_policy_cex :
    (dbPolicy.campaigns.find? (fun c => c.cid == 10)).map Campaign.callsPerMinute = some 5 ∧
    ¬ (50 : Nat) ≤ 5 ∧
    (nextContacts dbPolicy 1 10 (some 50)).1 = .ok [ct 1 "p1"] (195 / 2) := by
  refine ⟨?_, ?_, ?_⟩ <;>
    norm_num [nextContacts, parseCount, CALL_COST, setUserBalance, dbPolicy, ct]

/-- Claim C8, counterexample.  The amount 0 is non-negative, yet
`POST /admin/users/:userId/add-balance` rejects it (`amount <= 0`) with
"Invalid amount." and leaves the store untouched. -/
theorem addBalance_rejects_zero_cex :
    (0 : ℚ) ≤ 0 ∧ addBalance dbCredit 1 (some 0) = (.invalidAmount, dbCredit) := by
  constructor
  · norm_num
  · norm_num [addBalance]

/-- Updating one balance to a non-negative value keeps every stored
balance non-negative. -/
theorem setUserBalance_nonneg {users : List AUser} {uid : Nat} {b : ℚ}
    (hb : 0 ≤ b) (h : ∀ u ∈ users, 0 ≤ u.balance) :
    ∀ u ∈ setUserBalance users uid b, 0 ≤ u.balance := by
  intro u hu
  rcases List.mem_map.mp hu with ⟨u₀, hu₀, rfl⟩
  by_cases hc : (u₀.uid == uid) = true
  · simp only [hc, if_true]
    exact hb
  · simp only [hc, if_false]
    exact h u₀ hu₀

/-- A dispatch tick keeps every balance non-negative: the only debit is
guarded by `user.balance < requiredBalance` returning 402 first. -/
theorem nextContacts_preserves_nonneg (db : Db) (a c : Nat) (k : Option Int)
    (h : balancesNonneg db) : balancesNonneg (nextContacts db a c k).2 := by
  unfold nextContacts
  split
  · exact h
  next user hu =>
    dsimp only
    split
    · exact fun u hu' => h u hu'
    next hlt =>
      have hb : 0 ≤ user.balance - CALL_COST * (parseCount k : ℚ) :=
        sub_nonneg.mpr (not_lt.mp hlt)
      split
      · exact h
      next camp hc =>
        split
        · exact h
        · split
          · exact fun u hu' => setUserBalance_nonneg hb h u hu'
          · exact fun u hu' => setUserBalance_nonneg hb h u hu'

/-- The admin credit keeps every balance non-negative: it only ever adds
a strictly positive amount. -/
theorem addBalance_preserves_nonneg (db : Db) (t : Nat) (amt : Option ℚ)
    (h : balancesNonneg db) : balancesNonneg (addBalance db t amt).2 := by
  unfold addBalance
  split
  · exact h
  next a =>
    split
    · exact h
    next ha =>
      split
      · exact h
      next u hu =>
        exact fun v hv =>
          setUserBalance_nonneg
            (add_nonneg (h u (List.mem_of_find?_eq_some hu)) (not_le.mp ha).le) h v hv

/-- Claim C4.  Starting from any store whose balances are all
non-negative, every single Debit (dispatch tick) or Credit (add-balance)
operation — and hence, inductively, every sequence of them — leaves
every account balance ≥ 0: the dispatch debit is guarded by the
`balance < requiredBalance` check and credits only add positive
amounts. -/
theorem balance_nonneg_invariant :
    (∀ (db : Db) (op : Op), balancesNonneg db → balancesNonneg (applyOp db op)) ∧
    (∀ (db : Db) (ops : List Op), balancesNonneg db → balancesNonneg (applyOps db ops)) := by
  have h1 : ∀ (db : Db) (op : Op), balancesNonneg db → balancesNonneg (applyOp db op) := by
    intro db op h
    cases op with
    | credit t a => exact addBalance_preserves_nonneg db t a h
    | dispatch u c k => exact nextContacts_preserves_nonneg db u c k h
  refine ⟨h1, ?_⟩
  intro db ops
  induction ops generalizing db with
  | nil => exact fun h => h
  | cons o os ih => exact fun h => ih _ (h1 db o h)

/-- Concrete instance of C4: the ten-contact fixture keeps non-negative
balances across a dispatch, a credit of 2.00, and an oversized dispatch
of 50. -/
theorem balance_nonneg_invariant_witness :
    balancesNonneg dbTen ∧
    balancesNonneg (applyOps dbTen
      [Op.dispatch 1 10 (some 5), Op.credit 1 (some 2), Op.dispatch 1 10 (some 50)]) :=
  ⟨by norm_num [balancesNonneg, dbTen],
   balance_nonneg_invariant.2 dbTen _ (by norm_num [balancesNonneg, dbTen])⟩

/-- Claim C5, amended.  A successful batch response implies the campaign
exists in the store, is owned by the requesting user, and is active —
the handler's `findOne({_id, user})` and `isActive` checks.  (No
conclusion ties the count to the batch-size policy: the handler never
reads `callsPerMinute`.) -/
theorem dispatch_ok_requires_active_owned_campaign
    (db : Db) (a cid : Nat) (k : Option Int) (batch : List Contact) (nb : ℚ)
    (h : (nextContacts db a cid k).1 = .ok batch nb) :
    ∃ c, db.campaigns.find? (fun c => c.cid == cid && c.userId == a) = some c ∧
      c.isActive = true := by
  unfold nextContacts at h
  split at h
  · simp at h
  next user hu =>
    dsimp only at h
    split at h
    · simp at h
    next hlt =>
      split at h
      · simp at h
      next camp hc =>
        split at h
        · simp at h
        next hact =>
          refine ⟨camp, hc, ?_⟩
          split at h
          all_goals simp_all

/-- Concrete instance of the amended C5: a successful request of 2 on
the fixture yields an existing, owned, active campaign. -/
theorem dispatch_ok_requires_active_owned_campaign_witness :
    ∃ c, dbPolicy.campaigns.find? (fun c => c.cid == 10 && c.userId == 1) = some c ∧
      c.isActive = true :=
  dispatch_ok_requires_active_owned_campaign dbPolicy 1 10 (some 2) [ct 1 "p1"] (999 / 10)
    (by norm_num [nextContacts, parseCount, CALL_COST, setUserBalance, dbPolicy, ct])

/-- Activating a campaign rewrites exactly the matching document: the
`find?` result of the updated collection is the found campaign with its
`isActive` flag set. -/
theorem find?_setCampaignActive {cs : List Campaign} {cid : Nat} {c : Campaign} (a : Bool)
    (h : cs.find? (fun x => x.cid == cid) = some c) :
    (setCampaignActive cs cid a).find? (fun x => x.cid == cid)
      = some { c with isActive := a } := by
  induction cs with
  | nil => simp at h
  | cons hd tl ih =>
    unfold setCampaignActive at ih ⊢
    rw [List.find?_cons] at h
    cases hcc : (hd.cid == cid) with
    | true =>
      rw [hcc] at h
      dsimp only at h
      injection h with h'
      subst h'
      simp only [List.map_cons, hcc, if_true, List.find?_cons]
    | false =>
      rw [hcc] at h
      dsimp only at h
      simp only [List.map_cons, hcc, Bool.false_eq_true, if_false, List.find?_cons]
      exact ih h

/-- Claim C6 (Start is modelled from the spec, no endpoint exists in
src/backend/server.js).  For a paused campaign: when the owner's balance
covers one call, Start succeeds and the stored campaign becomes active;
when it does not, Start returns the insufficient-funds error and the
store — hence the campaign's Paused state — is unchanged. -/
theorem start_requires_one_call_balance
    (db : Db) (cid : Nat) (c : Campaign) (owner : AUser)
    (hc : db.campaigns.find? (fun x => x.cid == cid) = some c)
    (_hpaused : c.isActive = false)
    (ho : db.users.find? (fun u => u.uid == c.userId) = some owner) :
    (CALL_COST ≤ owner.balance →
        (startCampaign db cid).1 = .started ∧
        (startCampaign db cid).2.campaigns.find? (fun x => x.cid == cid)
          = some { c with isActive := true }) ∧
    (owner.balance < CALL_COST →
        (startCampaign db cid).1 = .insufficientFunds ∧ (startCampaign db cid).2 = db) := by
  unfold startCampaign
  rw [hc]
  dsimp only
  rw [ho]
  dsimp only
  constructor
  · intro hle
    rw [if_neg (not_lt.mpr hle)]
    exact ⟨rfl, find?_setCampaignActive true hc⟩
  · intro hlt
    rw [if_pos hlt]
    exact ⟨rfl, rfl⟩

/-- Concrete instance of C6: balance 1.00 ≥ CALL_COST, so the paused
fixture campaign starts and is stored active. -/
theorem start_requires_one_call_balance_witness :
    (startCampaign dbStart 10).1 = .started ∧
    (startCampaign dbStart 10).2.campaigns.find? (fun x => x.cid == 10)
      = some { cid := 10, userId := 1, fromNumber := "+15550001111", ttsMessage := "hi",
               callsPerMinute := 5, isActive := true } :=
  (start_requires_one_call_balance dbStart 10
      { cid := 10, userId := 1, fromNumber := "+15550001111", ttsMessage := "hi",
        callsPerMinute := 5, isActive := false }
      { uid := 1, username := "u", password := "pw", role := "user", balance := 1 }
      rfl rfl rfl).1 (by norm_num [CALL_COST])

/-- Claim C8, amended.  The admin credit succeeds for every strictly
positive amount, storing exactly `balance + amount`, and rejects zero,
negative, and non-numeric amounts leaving the store untouched. -/
theorem addBalance_spec (db : Db) (t : Nat) (u : AUser)
    (hu : db.users.find? (fun x => x.uid == t) = some u) :
    (∀ a : ℚ, 0 < a →
        addBalance db t (some a)
          = (.ok (u.balance + a),
             { db with users := setUserBalance db.users t (u.balance + a) })) ∧
    (∀ a : ℚ, a ≤ 0 → addBalance db t (some a) = (.invalidAmount, db)) ∧
    addBalance db t none = (.invalidAmount, db) := by
  refine ⟨?_, ?_, rfl⟩
  · intro a ha
    unfold addBalance
    dsimp only
    rw [if_neg (not_le.mpr ha), hu]
  · intro a ha
    unfold addBalance
    dsimp only
    rw [if_pos ha]

/-- Concrete instance of the amended C8: crediting 5.00 to the balance
10.00 stores 15.00. -/
theorem addBalance_spec_witness :
    addBalance dbCredit 1 (some 5)
      = (.ok (10 + 5),
         { dbCredit with users := setUserBalance dbCredit.users 1 (10 + 5) }) :=
  (addBalance_spec dbCredit 1
      { uid := 1, username := "u", password := "pw", role := "user", balance := 10 }
      rfl).1 5 (by norm_num)

/-- Claim C9.  `$addToSet` on the global caller-ID blocklist is
idempotent: adding an already-present number is a no-op, every add
preserves duplicate-freedom, and posting the same single number twice
to an empty blocklist (through the endpoint's split/trim parsing)
leaves a blocklist of size 1. -/
theorem blocklist_add_idempotent :
    (∀ (bl : List String) (n : String), n ∈ bl → addNumbers bl [n] = bl) ∧
    (∀ (bl ns : List String), bl.Nodup → (addNumbers bl ns).Nodup) ∧
    (postBlocklist (postBlocklist [] (some "15551234567")) (some "15551234567")).length = 1 := by
  refine ⟨?_, ?_, by decide⟩
  · intro bl n h
    simp [addNumbers, addToSet, h]
  · intro bl ns
    induction ns generalizing bl with
    | nil => exact fun h => h
    | cons x xs ih =>
      intro h
      apply ih
      unfold addToSet
      split
      · exact h
      next hx =>
        simp [List.nodup_append, h, hx]

/-- Concrete instances of C9: re-adding a present number is a no-op and
a mixed add keeps the list duplicate-free. -/
theorem blocklist_add_idempotent_witness :
    ("5551234" ∈ ["5551234"] ∧ addNumbers ["5551234"] ["5551234"] = ["5551234"]) ∧
    (["5550000", "5551111"].Nodup ∧
      (addNumbers ["5550000", "5551111"] ["5551111", "5552222"]).Nodup) :=
  ⟨⟨by decide, blocklist_add_idempotent.1 ["5551234"] "5551234" (by decide)⟩,
   ⟨by decide,
    blocklist_add_idempotent.2.1 ["5550000", "5551111"] ["5551111", "5552222"] (by decide)⟩⟩

/-- Claim C10.  Registration takes the role straight from the
unauthenticated request body: with a fresh username, a body carrying
`role: "admin"` creates and stores a user whose role is `"admin"` (no
credential of any kind is a parameter of the operation), and a body
without a role gets the schema default `"user"`. -/
theorem register_role_from_body (db : Db) (username password : String) (newId : Nat)
    (h : db.users.find? (fun u => u.username == username) = none) :
    (register db username password (some "admin") newId).1
      = .ok { uid := newId, username := username, password := password,
              role := "admin", balance := 0 } ∧
    { uid := newId, username := username, password := password,
      role := "admin", balance := 0 }
      ∈ (register db username password (some "admin") newId).2.users ∧
    (register db username password none newId).1
      = .ok { uid := newId, username := username, password := password,
              role := "user", balance := 0 } := by
  unfold register
  rw [h]
  refine ⟨?_, ?_, ?_⟩ <;> simp [roleValid]

/-- Concrete instance of C10: registering "alice" with `role: "admin"`
on an empty store yields an admin account. -/
theorem register_role_from_body_witness :
    (register dbEmpty "alice" "secret" (some "admin") 1).1
      = .ok { uid := 1, username := "alice", password := "secret",
              role := "admin", balance := 0 } :=
  (register_role_from_body dbEmpty "alice" "secret" 1 rfl).1

/-- The word-character status of a list's first character is its
`wordAt` index 0. -/
theorem wordStart_eq_wordAt (l : List Char) : wordStart l = wordAt l 0 := by
  cases l <;> simp [wordStart, wordAt]

/-- Indexing inside the left part of an append. -/
theorem wordAt_append_left {pre : List Char} (rest : List Char) {i : Nat}
    (h : i < pre.length) : wordAt (pre ++ rest) i = wordAt pre i := by
  unfold wordAt
  rw [List.getElem?_append_left h]

/-- Indexing inside the right part of an append. -/
theorem wordAt_append_right (pre rest : List Char) {i : Nat}
    (h : pre.length ≤ i) : wordAt (pre ++ rest) i = wordAt rest (i - pre.length) := by
  unfold wordAt
  rw [List.getElem?_append_right h]

/-- The word-character status of a list's last character is its `wordAt`
last index. -/
theorem wordEnd_eq_wordAt (l : List Char) :
    wordEnd l = wordAt l (l.length - 1) := by
  unfold wordEnd wordAt
  rw [List.getLast?_eq_getElem? l]

/-- The `\b` assertion at the junction of an append is the exclusive-or
of the word-character status on either side of the junction. -/
theorem boundaryAt_append (pre rest : List Char) :
    boundaryAt (pre ++ rest) pre.length = (wordEnd pre != wordStart rest) := by
  unfold boundaryAt
  cases hp : pre.length with
  | zero =>
    have hpre : pre = [] := List.length_eq_zero.mp hp
    subst hpre
    rw [wordStart_eq_wordAt]
    rfl
  | succ j =>
    dsimp only
    have h1 : wordAt (pre ++ rest) j = wordEnd pre := by
      rw [wordAt_append_left rest (by omega), wordEnd_eq_wordAt, hp]
      congr 1
    have h2 : wordAt (pre ++ rest) (j + 1) = wordStart rest := by
      rw [wordAt_append_right pre rest (by omega), wordStart_eq_wordAt]
      congr 1
      omega
    rw [h1, h2]

/-- A positional whole-word regex match is exactly an append
decomposition with word boundaries at both junctions. -/
theorem matchWholeAt_iff (lw ls : List Char) (i : Nat) (hw : lw ≠ []) :
    matchWholeAt lw ls i = true ↔
      ∃ pre suf, ls = pre ++ lw ++ suf ∧ pre.length = i ∧
        wordEnd pre ≠ wordStart (lw ++ suf) ∧ wordEnd (pre ++ lw) ≠ wordStart suf := by
  unfold matchWholeAt
  simp only [Bool.and_eq_true, beq_iff_eq]
  constructor
  · rintro ⟨⟨htake, hb1⟩, hb2⟩
    have hlw : lw.length ≤ ls.length - i := by
      have hh := congrArg List.length htake
      simp [List.length_take, List.length_drop] at hh
      omega
    have hi : i ≤ ls.length := by
      by_contra hgt
      rw [Nat.not_le] at hgt
      have hnil : ls.drop i = [] := List.drop_eq_nil_of_le (Nat.le_of_lt hgt)
      rw [hnil] at htake
      simp at htake
      exact hw htake
    have hpre_len : (ls.take i).length = i := by
      simp [List.length_take]
      omega
    have hsplit : ls = ls.take i ++ (lw ++ ls.drop (i + lw.length)) := by
      conv_lhs => rw [← List.take_append_drop i ls]
      congr 1
      conv_lhs => rw [← List.take_append_drop lw.length (ls.drop i)]
      rw [htake, List.drop_drop, Nat.add_comm]
    obtain ⟨pre, suf, heq, hlen⟩ :
        ∃ pre suf, ls = pre ++ (lw ++ suf) ∧ pre.length = i :=
      ⟨ls.take i, ls.drop (i + lw.length), hsplit, hpre_len⟩
    subst hlen
    refine ⟨pre, suf, ?_, rfl, ?_, ?_⟩
    · rw [heq, List.append_assoc]
    · rw [heq, boundaryAt_append pre (lw ++ suf)] at hb1
      exact bne_iff_ne.mp hb1
    · rw [heq, ← List.append_assoc,
        show pre.length + lw.length = (pre ++ lw).length from (List.length_append pre lw).symm,
        boundaryAt_append] at hb2
      exact bne_iff_ne.mp hb2
  · rintro ⟨pre, suf, heq, hlen, hb1, hb2⟩
    subst heq
    subst hlen
    refine ⟨⟨?_, ?_⟩, ?_⟩
    · rw [List.append_assoc, List.drop_left]
      exact List.take_left lw suf
    · rw [List.append_assoc, boundaryAt_append]
      exact bne_iff_ne.mpr hb1
    · rw [show pre.length + lw.length = (pre ++ lw).length from (List.length_append pre lw).symm,
        boundaryAt_append]
      exact bne_iff_ne.mpr hb2

/-- The scanning matcher finds a whole-word occurrence iff one exists as
an append decomposition with boundaries. -/
theorem containsWholeWord_iff (lw ls : List Char) (hw : lw ≠ []) :
    containsWholeWord lw ls = true ↔
      ∃ pre suf, ls = pre ++ lw ++ suf ∧
        wordEnd pre ≠ wordStart (lw ++ suf) ∧ wordEnd (pre ++ lw) ≠ wordStart suf := by
  unfold containsWholeWord
  rw [List.any_eq_true]
  constructor
  · rintro ⟨i, _hmem, hmatch⟩
    rcases (matchWholeAt_iff lw ls i hw).mp hmatch with ⟨pre, suf, heq, _hlen, h1, h2⟩
    exact ⟨pre, suf, heq, h1, h2⟩
  · rintro ⟨pre, suf, heq, h1, h2⟩
    refine ⟨pre.length, List.mem_range.mpr ?_,
      (matchWholeAt_iff lw ls pre.length hw).mpr ⟨pre, suf, heq, rfl, h1, h2⟩⟩
    subst heq
    simp [List.length_append]
    omega

/-- The external check flags exactly a successful classifier response
with some per-category score above the threshold; `none` (failure) never
flags. -/
theorem externallyFlagged_iff (response : Option Scores) :
    externallyFlagged response = true ↔
      ∃ s, response = some s ∧
        (SPAM_THRESHOLD < s.spam ∨ SPAM_THRESHOLD < s.toxicity ∨ SPAM_THRESHOLD < s.threat) := by
  cases response with
  | none => simp [externallyFlagged]
  | some s => simp [externallyFlagged, or_assoc]

/-- Claim C7, in the scope where the embedding is exact.  For every
text and every custom word list all of whose entries are plain words —
non-empty and made only of word characters once trimmed, so the
unescaped interpolation into `\b...\b` really is a literal whole-word
pattern — `isTextFlagged` returns true iff either the classifier is
configured, responded successfully, and some per-category score exceeds
the 0.8 threshold, or the text contains a case-insensitive whole-word
occurrence of some trimmed list word; classifier failure (`none`)
contributes nothing, so moderation degrades to wordlist-only.  Entries
with regex metacharacters are interpreted (or rejected) by the JS
engine and are outside this theorem. -/
theorem isTextFlagged_iff (configured : Bool) (response : Option Scores) (text : String)
    (bl : List String) (hbl : ∀ w ∈ bl, plainWord w = true) :
    isTextFlagged configured response text bl = true ↔
      ((configured = true ∧ ∃ s, response = some s ∧
          (SPAM_THRESHOLD < s.spam ∨ SPAM_THRESHOLD < s.toxicity ∨ SPAM_THRESHOLD < s.threat))
       ∨ ∃ w ∈ bl, SpecWholeWordOccurs text (trimChars w.data)) := by
  unfold isTextFlagged
  rw [Bool.or_eq_true, Bool.and_eq_true, List.any_eq_true]
  apply or_congr
  · exact and_congr_right fun _ => externallyFlagged_iff response
  · apply exists_congr
    intro w
    apply and_congr_right
    intro hw
    unfold SpecWholeWordOccurs
    apply containsWholeWord_iff
    intro hnil
    have hpw := hbl w hw
    unfold plainWord at hpw
    rw [Bool.and_eq_true] at hpw
    rw [List.map_eq_nil_iff.mp hnil] at hpw
    simp at hpw

/-- Concrete instances of C7: "foo" is a plain word, and with the
classifier unreachable, blocklist ["foo"] flags "call about foo now" (a
whole-word occurrence, extracted through the theorem) but does not flag
"get foobar now" (substring only). -/
theorem isTextFlagged_iff_witness :
    (∀ w ∈ ["foo"], plainWord w = true) ∧
    isTextFlagged false none "call about foo now" ["foo"] = true ∧
    (∃ w ∈ ["foo"], SpecWholeWordOccurs "call about foo now" (trimChars w.data)) ∧
    isTextFlagged false none "get foobar now" ["foo"] = false :=
  ⟨by decide,
   by decide,
   ((isTextFlagged_iff false none "call about foo now" ["foo"] (by decide)).mp
     (by decide)).resolve_left (by simp),
   by decide⟩
